import Mathlib

/-!
Verification of the flask-trivia backend (`src/backend/flaskr/__init__.py`)
against its natural-language specification.

The HTTP route handlers are shallowly embedded as pure Lean functions over an
explicit store state `DB` (the relational data store holding Question and
Category records).  Fallible handlers return `Except Nat _`, the `Nat` being
the HTTP error status produced by `abort` (or by an uncaught exception, which
Flask maps to 500).  The pseudo-random draw of the quiz handler is modelled by
an extra `Nat` parameter supplying the random value.
-/

namespace Trivia

/-- A Question record, as stored and as serialised by `Question.format()`
(id, question, answer, category, difficulty are exactly the exposed fields). -/
structure Question where
  id : Int
  question : String
  answer : String
  category : Int
  difficulty : Int
deriving Repr, DecidableEq

/-- A Category record, as stored and as serialised by `Category.format()`. -/
structure Category where
  id : Int
  type : String
deriving Repr, DecidableEq

/-- The state of the relational store: the questions table and the
categories table, in store-returned (natural) order. -/
structure DB where
  questions : List Question
  categories : List Category
deriving Repr, DecidableEq

/-- `Question.query.get(id)` / `Category.query.get(id)`: primary-key lookup. -/
def DB.getQuestion (db : DB) (i : Int) : Option Question :=
  db.questions.find? (fun q => q.id == i)

/-- `Category.query.get(id)`: primary-key lookup in the categories table. -/
def DB.getCategory (db : DB) (i : Int) : Option Category :=
  db.categories.find? (fun c => c.id == i)

/-- `Question.query.filter_by(category=c)`, materialised. -/
def DB.questionsByCategory (db : DB) (c : Int) : List Question :=
  db.questions.filter (fun q => q.category == c)

/-- Python slice `xs[start:stop]` semantics: negative indices count from the
end, and both bounds are clamped to the list. -/
def pySlice {α : Type} (xs : List α) (start stop : Int) : List α :=
  let n : Int := xs.length
  let norm : Int → Nat := fun i =>
    if i < 0 then (max (n + i) 0).toNat else (min i n).toNat
  (xs.drop (norm start)).take (norm stop - norm start)

/-- `QUESTIONS_PER_PAGE = 10`. -/
def QUESTIONS_PER_PAGE : Int := 10

/-- The success body of `GET /questions`. -/
structure QuestionsResp where
  questions : List Question
  count : Nat
  categories : List Category
  current_category : Option String
deriving Repr, DecidableEq

/-- Embedding of the `GET /questions` handler (`get_questions`).
`page` is the parsed `?page=` query argument (default 1). -/
def get_questions (db : DB) (page : Int) : Except Nat QuestionsResp :=
  let start := (page - 1) * QUESTIONS_PER_PAGE
  let stop := start + QUESTIONS_PER_PAGE
  let selection := db.questions
  let categories_selection := db.categories
  if selection = [] then .error 404
  else
    let questions := pySlice selection start stop
    if questions = [] then .error 404
    else .ok {
      questions := questions
      count := selection.length
      categories := categories_selection
      current_category := none
    }

/-- The success body of `GET /categories`. -/
structure CategoriesResp where
  count : Nat
  categories : List Category
deriving Repr, DecidableEq

/-- Embedding of the `GET /categories` handler (`get_categories`). -/
def get_categories (db : DB) : Except Nat CategoriesResp :=
  if db.categories = [] then .error 404
  else .ok { count := db.categories.length, categories := db.categories }

/-- The success body of `GET /categories/{id}/questions`. -/
structure CatQuestionsResp where
  count : Nat
  questions : List Question
  current_category : String
deriving Repr, DecidableEq

/-- Embedding of the `GET /categories/<category_id>/questions` handler
(`get_question_by_category_id`).  A missing category makes the handler
dereference `category.id` on `None`, an uncaught `AttributeError` that Flask
maps to 500.  The `if not selection` guard in the source tests the
unmaterialised `Query` object, which is always truthy, so it never aborts and
is omitted here. -/
def get_question_by_category_id (db : DB) (category_id : Int) :
    Except Nat CatQuestionsResp :=
  match db.getCategory category_id with
  | none => .error 500
  | some category =>
    let selection := db.questionsByCategory category.id
    .ok {
      count := selection.length
      questions := selection
      current_category := category.type
    }

/-- The success body of `DELETE /questions/{id}`. -/
structure DeleteResp where
  questions : List Question
  count : Nat
deriving Repr, DecidableEq

/-- Embedding of the `DELETE /questions/<int:id>` handler (`delete_question`).
Returns the store state after the request together with the response: the
delete is committed before the post-delete emptiness guards run, so a 404
raised after a successful delete still leaves the question removed. -/
def delete_question (db : DB) (i : Int) : DB × Except Nat DeleteResp :=
  match db.getQuestion i with
  | none => (db, .error 404)
  | some _ =>
    let db' : DB := { db with questions := db.questions.filter (fun q => q.id ≠ i) }
    let selection := db'.questions
    if selection = [] then (db', .error 404)
    else (db', .ok { questions := selection, count := selection.length })

/-- The `question` sub-object of a `POST /questions` create request: a JSON
object whose four sub-fields may each be absent. -/
structure NewQuestion where
  question : Option String
  answer : Option String
  difficulty : Option Int
  category : Option Int
deriving Repr, DecidableEq

/-- The JSON body of `POST /questions`.  Each top-level key may be absent
(`none`).  `category` is a category id, `search` a search term, `question`
the create payload. -/
structure PostBody where
  category : Option Int
  search : Option String
  question : Option NewQuestion
deriving Repr, DecidableEq

/-- Python truthiness of the `category` value: the integer 0 is falsy, so a
present `category: 0` does not take the category branch. -/
def categoryTruthy : Option Int → Bool
  | none => false
  | some c => c != 0

/-- Python truthiness of the `search` value: the empty string is falsy, so a
present `search: ""` does not take the search branch. -/
def searchTruthy : Option String → Bool
  | none => false
  | some s => s != ""

/-- `Question.question.ilike('%term%')`: case-insensitive substring match. -/
def ilikeMatch (text term : String) : Bool :=
  decide (term.toLower.toList <:+: text.toLower.toList)

/-- The success body of `POST /questions`: the search/filter branches answer
200 without `created`; the create branch answers 201 with the new id. -/
inductive PostResp where
  | listed (questions : List Question) (count : Nat)
  | created (questions : List Question) (createdId : Int) (count : Nat)
deriving Repr, DecidableEq

/-- Embedding of the `POST /questions` handler (`post_questions`).  `newId`
is the store-assigned id of an inserted row.  Dispatch is by Python
truthiness: category filter first, else search, else create, else 422.
The `if not selection` guards that test unmaterialised `Query` objects are
always-truthy no-ops and are omitted; the guards on the materialised lists
are kept.  Returns the store state after the request and the response. -/
def post_questions (db : DB) (body : PostBody) (newId : Int) :
    DB × Except Nat PostResp :=
  if categoryTruthy body.category then
    let selection := db.questionsByCategory (body.category.getD 0)
    if selection = [] then (db, .error 404)
    else (db, .ok (.listed selection selection.length))
  else if searchTruthy body.search then
    let selection := (db.questions.filter
        (fun q => ilikeMatch q.question (body.search.getD ""))).mergeSort
        (fun a b => a.id ≤ b.id)
    if selection = [] then (db, .error 404)
    else (db, .ok (.listed selection selection.length))
  else
    match body.question with
    | none => (db, .error 422)
    | some nq =>
      match nq.question, nq.answer, nq.difficulty, nq.category with
      | some question_text, some answer_text, some difficulty, some category =>
        let existing_question :=
          db.questions.filter (fun q => q.question == question_text)
        if existing_question ≠ [] then (db, .error 409)
        else
          let newQ : Question := {
            id := newId, question := question_text, answer := answer_text,
            category := category, difficulty := difficulty }
          let db' : DB := { db with questions := db.questions ++ [newQ] }
          let selection := db'.questions
          if selection = [] then (db', .error 404)
          else (db', .ok (.created selection newQ.id selection.length))
      | _, _, _, _ => (db, .error 422)

/-- A JSON scalar as it can arrive in the quiz body's `category_id` field:
the frontend may send the id as a number or as a string. -/
inductive JVal where
  | jnum (n : Int)
  | jstr (s : String)
deriving Repr, DecidableEq

/-- Python truthiness of a JSON scalar: the number 0 and the empty string
are falsy. -/
def JVal.truthy : JVal → Bool
  | .jnum n => n != 0
  | .jstr s => s != ""

/-- The integer a `category_id` value denotes when used against the integer
primary-key / category columns: a number is itself, a string is coerced by
the database, failing (`none`) when not numeric. -/
def JVal.asInt : JVal → Option Int
  | .jnum n => some n
  | .jstr s => s.toInt?

/-- The nested `quiz` object of a `POST /quizzes` body; each key may be
absent. -/
structure QuizData where
  category_id : Option JVal
  previous_questions : Option (List Int)
deriving Repr, DecidableEq

/-- The JSON body of `POST /quizzes`. -/
structure QuizBody where
  quiz : Option QuizData
deriving Repr, DecidableEq

/-- The question set the quiz handler draws from, together with the reported
current category (`none` encodes the empty string `""` of the
all-categories case).  `none` overall is the path where
`Category.query.get(category_id)` finds no row and `category_query.format()`
raises an uncaught `AttributeError` (HTTP 500). -/
def quizSelection (db : DB) (cid : JVal) :
    Option (List Question × Option Category) :=
  if ¬ cid.truthy ∨ cid = .jstr "0" then
    some (db.questions, none)
  else
    match cid.asInt.bind db.getCategory with
    | none => none
    | some category =>
      some (db.questions.filter (fun q => cid.asInt = some q.category),
            some category)

/-- The success body of `POST /quizzes`: the chosen question or `null`, the
echoed previous-questions list, and the current category (`none` for `""`). -/
structure QuizResp where
  question : Option Question
  previous_questions : List Int
  current_category : Option Category
deriving Repr, DecidableEq

/-- Embedding of the `POST /quizzes` handler (`get_quizzes`).  `r` supplies
the pseudo-random draw: the source picks `questions[randint(0, len-1)]`, here
`questions.get? (r % questions.length)`, which is `none` exactly on the
source's empty-remainder `else` branch.  `quiz_data['previous_questions']`
sits outside any `try`, so a missing key is an uncaught `KeyError` (500). -/
def get_quizzes (db : DB) (body : QuizBody) (r : Nat) : Except Nat QuizResp :=
  match body.quiz with
  | none => .error 422
  | some quiz_data =>
    match quiz_data.category_id with
    | none => .error 422
    | some category_id =>
      match quizSelection db category_id with
      | none => .error 500
      | some (selection, category) =>
        match quiz_data.previous_questions with
        | none => .error 500
        | some previous_questions =>
          let questions := (pySlice selection 0 5).filter
            (fun q => ¬ q.id ∈ previous_questions)
          .ok {
            question := questions.get? (r % questions.length)
            previous_questions := previous_questions
            current_category := category
          }

/-- The HTTP status of a handler result: 200 on success, the aborted (or
uncaught-exception) status on failure. -/
def respStatus {α : Type} : Except Nat α → Nat
  | .ok _ => 200
  | .error e => e

/-- Modelled from the spec's words (for comparison with `get_questions`):
"the page window [(page-1)*10, (page-1)*10+10) over the question collection
contains zero items" — no item of the collection has its 0-based index in
that half-open integer interval. -/
def specWindowEmpty (db : DB) (page : Int) : Prop :=
  ∀ i : Nat, i < db.questions.length →
    ¬ ((page - 1) * 10 ≤ (i : Int) ∧ (i : Int) < (page - 1) * 10 + 10)

instance (db : DB) (page : Int) : Decidable (specWindowEmpty db page) :=
  Nat.decidableBallLT _ _

/- Concrete fixtures used by witnesses and counterexamples. -/

/-- A concrete question record. -/
def qA : Question := ⟨1, "What is Lean?", "A proof assistant", 1, 2⟩

/-- A second concrete question record. -/
def qB : Question := ⟨2, "What is Flask?", "A web framework", 1, 1⟩

/-- A concrete category record. -/
def catSci : Category := ⟨1, "Science"⟩

/-- A concrete store with two questions and one category. -/
def dbW : DB := ⟨[qA, qB], [catSci]⟩

/-- A store holding eleven questions (ids 0–10), used to exercise paging. -/
def dbBig : DB := ⟨(List.range 11).map (fun i => ⟨i, "q", "a", 1, 1⟩), []⟩

/-- A store with one category and no questions. -/
def dbEmptyQ : DB := ⟨[], [catSci]⟩

/-- C2: whenever `GET /questions` succeeds, the `count` field equals the
store's total number of questions, independent of the page slice. -/
theorem get_questions_count_is_total (db : DB) (page : Int)
    (resp : QuestionsResp) (h : get_questions db page = .ok resp) :
    resp.count = db.questions.length := by
  unfold get_questions at h
  dsimp only at h
  split at h
  · exact absurd h (by simp)
  · split at h
    · exact absurd h (by simp)
    · rw [Except.ok.injEq] at h
      subst h
      rfl

/-- Witness for C2 at a concrete store and page. -/
theorem get_questions_count_is_total_witness :
    (⟨[qA, qB], 2, [catSci], none⟩ : QuestionsResp).count
      = dbW.questions.length :=
  get_questions_count_is_total dbW 1 _ rfl

/-- C7 counterexample: with category 1 present but owning zero questions,
`GET /categories/1/questions` answers success with `count` 0 — not the 404
the claim requires for an empty filtered result set. -/
theorem cat_questions_empty_is_200 :
    get_question_by_category_id dbEmptyQ 1 = .ok ⟨0, [], "Science"⟩ ∧
    dbEmptyQ.questionsByCategory 1 = [] :=
  ⟨rfl, rfl⟩

/-- C7 amended: the `GET /categories/{id}/questions` handler never answers
404: its emptiness guard tests the always-truthy query object.  When the
category exists the handler answers success — with `count` 0 when the
filtered set is empty — and a missing category yields an uncaught error
(500), not 404. -/
theorem cat_questions_never_404 (db : DB) (category_id : Int) :
    respStatus (get_question_by_category_id db category_id) ≠ 404 ∧
    (∀ c, db.getCategory category_id = some c →
      get_question_by_category_id db category_id =
        .ok ⟨(db.questionsByCategory c.id).length,
             db.questionsByCategory c.id, c.type⟩) := by
  constructor
  · unfold get_question_by_category_id
    split
    · simp [respStatus]
    · simp [respStatus]
  · intro c hc
    unfold get_question_by_category_id
    rw [hc]

/-- Witness for C7's amended theorem at a concrete store. -/
theorem cat_questions_never_404_witness :
    respStatus (get_question_by_category_id dbEmptyQ 1) ≠ 404 ∧
    get_question_by_category_id dbEmptyQ 1 =
      .ok ⟨(dbEmptyQ.questionsByCategory catSci.id).length,
           dbEmptyQ.questionsByCategory catSci.id, catSci.type⟩ :=
  ⟨(cat_questions_never_404 dbEmptyQ 1).1,
   (cat_questions_never_404 dbEmptyQ 1).2 catSci rfl⟩

/-- C9: `POST /questions` dispatch treats a present-but-falsy field as
absent: `category: 0` behaves exactly like a missing `category`, and
`search: ""` like a missing `search`; a body holding only `category: 0`
or only `search: ""` therefore falls through every branch to 422, so
category id 0 can never be filtered through this route. -/
theorem post_falsy_fields_fall_through (db : DB) (body : PostBody)
    (newId : Int) :
    post_questions db { body with category := some 0 } newId =
      post_questions db { body with category := none } newId ∧
    post_questions db { body with search := some "" } newId =
      post_questions db { body with search := none } newId ∧
    post_questions db ⟨some 0, none, none⟩ newId = (db, .error 422) ∧
    post_questions db ⟨none, some "", none⟩ newId = (db, .error 422) := by
  refine ⟨?_, ?_, rfl, rfl⟩
  · unfold post_questions
    rfl
  · unfold post_questions
    rfl

/-- For a non-negative start index, the Python page slice is empty exactly
when the start index is at or beyond the end of the list. -/
lemma pySlice_nonneg_eq_nil_iff {α : Type} (xs : List α) (start : Int)
    (h : 0 ≤ start) :
    pySlice xs start (start + 10) = [] ↔ (xs.length : Int) ≤ start := by
  unfold pySlice
  dsimp only
  rw [if_neg (by omega), if_neg (by omega)]
  rw [List.take_eq_nil_iff, List.drop_eq_nil_iff]
  omega

/-- The spec's page window is empty exactly when the window start is at or
beyond the end of the collection (for pages ≥ 1). -/
lemma specWindowEmpty_iff (db : DB) (page : Int) (hp : 1 ≤ page) :
    specWindowEmpty db page ↔
      (db.questions.length : Int) ≤ (page - 1) * 10 := by
  unfold specWindowEmpty
  constructor
  · intro hall
    by_contra hlt
    push_neg at hlt
    exact hall ((page - 1) * 10).toNat (by omega) (by omega)
  · intro hle i hi
    omega

/-- C4 counterexample: with eleven questions in the store and page number
-1, the handler answers 200 (Python's negative-index slice is non-empty)
although the spec's window [(page-1)*10, (page-1)*10+10) = [-20, -10)
contains zero items and the store is non-empty, so the claimed "404 exactly
when" biconditional fails. -/
theorem paging_window_counterexample :
    respStatus (get_questions dbBig (-1)) = 200 ∧
    specWindowEmpty dbBig (-1) ∧
    dbBig.questions ≠ [] := by
  decide

/-- C4 amended: for page numbers ≥ 1 (where Python slicing agrees with the
index-window reading), `GET /questions` answers 404 exactly when the store
holds zero questions or the page window over the question collection
contains zero items. -/
theorem get_questions_404_iff (db : DB) (page : Int) (hp : 1 ≤ page) :
    respStatus (get_questions db page) = 404 ↔
      (db.questions = [] ∨ specWindowEmpty db page) := by
  have hstart : (0 : Int) ≤ (page - 1) * 10 := by omega
  unfold get_questions QUESTIONS_PER_PAGE
  dsimp only
  split
  · rename_i hnil
    exact iff_of_true rfl (Or.inl hnil)
  · rename_i hnil
    split
    · rename_i hslice
      refine iff_of_true rfl (Or.inr ?_)
      rw [specWindowEmpty_iff db page hp]
      exact (pySlice_nonneg_eq_nil_iff db.questions _ hstart).mp hslice
    · rename_i hslice
      refine iff_of_false (by simp [respStatus]) ?_
      rintro (h | hw)
      · exact hnil h
      · exact hslice ((pySlice_nonneg_eq_nil_iff db.questions _ hstart).mpr
          ((specWindowEmpty_iff db page hp).mp hw))

/-- Witness for C4's amended theorem: page 2 of a two-question store is
beyond the data, so it is 404, and its window is empty. -/
theorem get_questions_404_iff_witness :
    (1 : Int) ≤ 2 ∧
    (respStatus (get_questions dbW 2) = 404 ↔
      (dbW.questions = [] ∨ specWindowEmpty dbW 2)) :=
  ⟨by omega, get_questions_404_iff dbW 2 (by omega)⟩

/-- C8: deleting an existing question removes exactly that question — the
subsequent by-id lookup is `none`, its id is gone from the full listing,
and every other question survives unchanged — while deleting an absent id
fails 404 and leaves the store untouched. -/
theorem delete_question_removes (db : DB) (i : Int) :
    (∀ q, db.getQuestion i = some q →
      ((delete_question db i).1.getQuestion i = none ∧
       ¬ i ∈ (delete_question db i).1.questions.map Question.id ∧
       (∀ p, p ∈ db.questions → p.id ≠ i →
          p ∈ (delete_question db i).1.questions) ∧
       (∀ p, p ∈ (delete_question db i).1.questions → p ∈ db.questions))) ∧
    (db.getQuestion i = none → delete_question db i = (db, .error 404)) := by
  constructor
  · intro q hq
    have hfst : (delete_question db i).1 =
        { db with questions := db.questions.filter (fun p => p.id ≠ i) } := by
      unfold delete_question
      rw [hq]
      dsimp only
      split <;> rfl
    rw [hfst]
    refine ⟨?_, ?_, ?_, ?_⟩
    · unfold DB.getQuestion
      dsimp only
      rw [List.find?_eq_none]
      intro x hx
      have hx2 := (List.mem_filter.mp hx).2
      simp only [decide_not, Bool.not_eq_true', decide_eq_false_iff_not] at hx2
      simpa using hx2
    · intro hmem
      simp only [List.mem_map, List.mem_filter] at hmem
      obtain ⟨p, ⟨_, hp2⟩, hp3⟩ := hmem
      simp only [decide_not, Bool.not_eq_true', decide_eq_false_iff_not] at hp2
      exact hp2 hp3
    · intro p hp hne
      exact List.mem_filter.mpr ⟨hp, by simpa using hne⟩
    · intro p hp
      exact (List.mem_filter.mp hp).1
  · intro hnone
    unfold delete_question
    rw [hnone]

/-- Witness for C8 at a concrete store: deleting id 1 empties its lookup
and keeps the other question; deleting absent id 3 fails 404 unchanged. -/
theorem delete_question_removes_witness :
    (delete_question dbW 1).1.getQuestion 1 = none ∧
    qB ∈ (delete_question dbW 1).1.questions ∧
    delete_question dbW 3 = (dbW, .error 404) :=
  ⟨((delete_question_removes dbW 1).1 qA rfl).1,
   ((delete_question_removes dbW 1).1 qA rfl).2.2.1 qB
     (by simp [dbW]) (by decide),
   (delete_question_removes dbW 3).2 rfl⟩

/-- A create body duplicating `qA`'s question text with different other
fields. -/
def bodyDup : PostBody :=
  ⟨none, none, some ⟨some "What is Lean?", some "Another answer", some 5, some 9⟩⟩

/-- A create body whose `answer` sub-field is missing. -/
def bodyMiss : PostBody :=
  ⟨none, none, some ⟨some "Fresh question", none, some 1, some 1⟩⟩

/-- C3: a create request whose question text equals the text of an existing
record fails 409 (conflict) whatever the other field values are, and the
store is unchanged. -/
theorem create_duplicate_conflict (db : DB) (body : PostBody) (newId : Int)
    (nq : NewQuestion) (qt ans : String) (d c : Int) (q0 : Question)
    (hcat : categoryTruthy body.category = false)
    (hsearch : searchTruthy body.search = false)
    (hbody : body.question = some nq)
    (hqt : nq.question = some qt) (hans : nq.answer = some ans)
    (hd : nq.difficulty = some d) (hcf : nq.category = some c)
    (hex : q0 ∈ db.questions) (hdup : q0.question = qt) :
    post_questions db body newId = (db, .error 409) := by
  unfold post_questions
  rw [if_neg (by simp [hcat]), if_neg (by simp [hsearch]), hbody]
  dsimp only
  rw [hqt, hans, hd, hcf]
  dsimp only
  rw [if_pos (List.ne_nil_of_mem (List.mem_filter.mpr ⟨hex, by simp [hdup]⟩))]

/-- Witness for C3: re-posting `qA`'s text with other fields changed is a
409 and leaves the store as it was. -/
theorem create_duplicate_conflict_witness :
    post_questions dbW bodyDup 99 = (dbW, .error 409) :=
  create_duplicate_conflict dbW bodyDup 99 _ _ _ _ _ qA rfl rfl rfl rfl rfl
    rfl rfl (by simp [dbW]) rfl

/-- C6: a create request missing any of the four required sub-fields
(question, answer, difficulty, category) fails 422 and the store is
unchanged. -/
theorem create_missing_field_422 (db : DB) (body : PostBody) (newId : Int)
    (nq : NewQuestion)
    (hcat : categoryTruthy body.category = false)
    (hsearch : searchTruthy body.search = false)
    (hbody : body.question = some nq)
    (hmiss : nq.question = none ∨ nq.answer = none ∨ nq.difficulty = none ∨
      nq.category = none) :
    post_questions db body newId = (db, .error 422) := by
  obtain ⟨oq, oa, od, oc⟩ := nq
  unfold post_questions
  rw [if_neg (by simp [hcat]), if_neg (by simp [hsearch]), hbody]
  dsimp only at hmiss ⊢
  cases oq <;> cases oa <;> cases od <;> cases oc <;> simp_all

/-- Witness for C6: a create body lacking `answer` is refused 422 with the
store unchanged. -/
theorem create_missing_field_422_witness :
    post_questions dbW bodyMiss 99 = (dbW, .error 422) :=
  create_missing_field_422 dbW bodyMiss 99 _ rfl rfl rfl
    (Or.inr (Or.inl rfl))

/-- Python's `xs[:5]` is `List.take 5`. -/
lemma pySlice_zero_five {α : Type} (xs : List α) :
    pySlice xs 0 5 = xs.take 5 := by
  unfold pySlice
  dsimp only
  rw [if_neg (by omega), if_neg (by omega)]
  have h0 : (min (0 : Int) (xs.length : Int)).toNat = 0 := by omega
  have h5 : (min (5 : Int) (xs.length : Int)).toNat = min 5 xs.length := by
    omega
  rw [h0, h5, List.drop_zero, Nat.sub_zero]
  rcases Nat.le_total 5 xs.length with h | h
  · rw [Nat.min_eq_left h]
  · rw [Nat.min_eq_right h, List.take_length,
        List.take_of_length_le h]

/-- C5: a quiz body whose quiz object lacks `category_id` is refused 422;
a `category_id` of 0 or the string "0" selects from the full question
collection with the empty current category. -/
theorem quiz_category_id_rules (db : DB) (body : QuizBody) (r : Nat)
    (qd : QuizData) (hq : body.quiz = some qd) :
    (qd.category_id = none → get_quizzes db body r = .error 422) ∧
    quizSelection db (.jnum 0) = some (db.questions, none) ∧
    quizSelection db (.jstr "0") = some (db.questions, none) := by
  refine ⟨?_, rfl, rfl⟩
  intro hc
  unfold get_quizzes
  rw [hq]
  dsimp only
  rw [hc]

/-- Witness for C5 at a concrete store and body. -/
theorem quiz_category_id_rules_witness :
    get_quizzes dbW ⟨some ⟨none, some []⟩⟩ 0 = .error 422 ∧
    quizSelection dbW (.jnum 0) = some (dbW.questions, none) ∧
    quizSelection dbW (.jstr "0") = some (dbW.questions, none) :=
  ⟨(quiz_category_id_rules dbW ⟨some ⟨none, some []⟩⟩ 0 ⟨none, some []⟩
      rfl).1 rfl,
   (quiz_category_id_rules dbW ⟨some ⟨none, some []⟩⟩ 0 ⟨none, some []⟩
      rfl).2.1,
   (quiz_category_id_rules dbW ⟨some ⟨none, some []⟩⟩ 0 ⟨none, some []⟩
      rfl).2.2⟩

/-- C10: a truthy `category_id` other than "0" that matches no Category
record makes the quiz handler dereference the failed lookup: the request
dies with an uncaught error mapped to 500, not to 404. -/
theorem quiz_missing_category_500 (db : DB) (body : QuizBody) (r : Nat)
    (qd : QuizData) (cid : JVal)
    (hq : body.quiz = some qd) (hc : qd.category_id = some cid)
    (ht : cid.truthy = true) (h0 : cid ≠ .jstr "0")
    (hn : ∀ c, c ∈ db.categories → cid.asInt ≠ some c.id) :
    get_quizzes db body r = .error 500 := by
  have hbind : cid.asInt.bind db.getCategory = none := by
    cases ha : cid.asInt with
    | none => rfl
    | some n =>
      show db.getCategory n = none
      unfold DB.getCategory
      rw [List.find?_eq_none]
      intro c hcmem
      simp only [beq_iff_eq, decide_eq_true_eq]
      intro heq
      exact hn c hcmem (by rw [ha, heq])
  have hsel : quizSelection db cid = none := by
    unfold quizSelection
    rw [if_neg (by simp [ht, h0]), hbind]
  unfold get_quizzes
  rw [hq]
  dsimp only
  rw [hc]
  dsimp only
  rw [hsel]

/-- Witness for C10: category id 3 is unknown to the store, so the quiz
request ends in 500. -/
theorem quiz_missing_category_500_witness :
    get_quizzes dbW ⟨some ⟨some (.jnum 3), some []⟩⟩ 0 = .error 500 :=
  quiz_missing_category_500 dbW ⟨some ⟨some (.jnum 3), some []⟩⟩ 0
    ⟨some (.jnum 3), some []⟩ (.jnum 3) rfl rfl rfl (by decide) (by decide)

/-- C1: on a valid quiz body, a non-null returned question lies in the
first 5 of the selected set in store order with its id outside
`previous_questions`; when that whole window is excluded, the handler still
succeeds and carries a null question. -/
theorem quiz_choice_in_window (db : DB) (body : QuizBody) (r : Nat)
    (qd : QuizData) (cid : JVal) (prev : List Int)
    (sel : List Question) (cat : Option Category)
    (hq : body.quiz = some qd) (hc : qd.category_id = some cid)
    (hp : qd.previous_questions = some prev)
    (hs : quizSelection db cid = some (sel, cat)) :
    (∀ q : Question, get_quizzes db body r = .ok ⟨some q, prev, cat⟩ →
      q ∈ sel.take 5 ∧ ¬ q.id ∈ prev) ∧
    ((sel.take 5).filter (fun q => ¬ q.id ∈ prev) = [] →
      get_quizzes db body r = .ok ⟨none, prev, cat⟩) := by
  have hrun : get_quizzes db body r = .ok
      ⟨((sel.take 5).filter (fun q => ¬ q.id ∈ prev)).get?
         (r % ((sel.take 5).filter (fun q => ¬ q.id ∈ prev)).length),
       prev, cat⟩ := by
    unfold get_quizzes
    rw [hq]
    dsimp only
    rw [hc]
    dsimp only
    rw [hs]
    dsimp only
    rw [hp]
    dsimp only
    rw [pySlice_zero_five]
  constructor
  · intro q hok
    rw [hrun, Except.ok.injEq, QuizResp.mk.injEq] at hok
    have hget := hok.1
    have hmem := List.get?_mem hget
    have hsplit := List.mem_filter.mp hmem
    exact ⟨hsplit.1, by simpa using hsplit.2⟩
  · intro hempty
    rw [hrun, hempty]
    rfl

/-- Witness for C1: the all-categories quiz over the two-question store. -/
theorem quiz_choice_in_window_witness :
    (∀ q : Question,
        get_quizzes dbW ⟨some ⟨some (.jnum 0), some [1]⟩⟩ 0 =
          .ok ⟨some q, [1], none⟩ →
      q ∈ dbW.questions.take 5 ∧ ¬ q.id ∈ [1]) ∧
    ((dbW.questions.take 5).filter (fun q => ¬ q.id ∈ [1]) = [] →
      get_quizzes dbW ⟨some ⟨some (.jnum 0), some [1]⟩⟩ 0 =
        .ok ⟨none, [1], none⟩) :=
  quiz_choice_in_window dbW ⟨some ⟨some (.jnum 0), some [1]⟩⟩ 0
    ⟨some (.jnum 0), some [1]⟩ (.jnum 0) [1] dbW.questions none
    rfl rfl rfl rfl

end Trivia
